import Mathlib

/-! # cn-sample-service: plugin lifecycle, data-sync subscription and health probes

A shallow embedding of three vendored plugins of the service:

* `probe`       : `health/probe/plugin_impl_probes.go` (liveness / readiness handlers),
* `kvdbsync`    : `datasync/kvdbsync/plugin_impl_dbsync.go` (Init / Watch / Put / Close),
* `linuxplugin` : `plugins/linuxplugin/linuxplugin_init.go` (Init / Close, global instance).

Stateful code is written in state-passing style.  Collaborators whose code is
not among the files embedded here (the key-value broker, the base watcher, `safeclose`,
`subscribeWatcher`, `json.Marshal`) are parameters of the model, collected in an
`Env` record of the package that calls them.
-/

/-- Go `error` values.  The named constructors are the kinds of the error taxonomy
of the design document (section 7); `other` stands for any other error value.
`Option Err` is the Go type `error`, with `none` for `nil`. -/
inductive Err where
  | InvalidArgument
  | DuplicateRegistration
  | AlreadyExists
  | NotFound
  | ResyncFailed
  | BackendUnavailable
  | Stopped
  | other (msg : String)
  deriving DecidableEq, Repr

/-- How a call of a Go function ends: it returns a value, it panics (nil
dereference, call of a nil function value), or it blocks and never returns. -/
inductive Outcome (α : Type) where
  | returned (a : α)
  | panicked
  | blocked
  deriving DecidableEq, Repr

/-- A Go channel value (`chan T`), identified by its allocation number. -/
structure Chan where
  id : Nat
  deriving DecidableEq, Repr

/-! ## health/probe -/

namespace probe

/-- The protobuf enum `status.OperationalState` (an `int32`). -/
abbrev OperationalState := Int

/-- Enum constants of `status.OperationalState`. -/
def OperationalState_INIT : OperationalState := 0
def OperationalState_OK : OperationalState := 1
def OperationalState_ERROR : OperationalState := 2

/-- The `status.AgentStatus` message: the handlers inspect `State` only; the
remaining fields are carried along in `fields`. -/
structure AgentStatus where
  State : OperationalState
  fields : String
  deriving DecidableEq, Repr

/-- Constants `http.StatusOK` and `http.StatusInternalServerError`. -/
def StatusOK : Nat := 200
def StatusInternalServerError : Nat := 500

/-- What an `http.ResponseWriter` has been told so far: the status code of the
header (once written) and the body bytes. -/
structure ResponseWriter where
  status : Option Nat
  body : String
  deriving DecidableEq, Repr

/-- A response writer nothing has been written to. -/
def ResponseWriter.fresh : ResponseWriter := ⟨none, ""⟩

/-- Method `WriteHeader`: the first status code written is the one sent. -/
def ResponseWriter.WriteHeader (w : ResponseWriter) (code : Nat) : ResponseWriter :=
  match w.status with
  | none => { w with status := some code }
  | some _ => w

/-- Method `Write`: sends the header with `StatusOK` if none was written, then
appends the bytes to the body. -/
def ResponseWriter.Write (w : ResponseWriter) (bytes : String) : ResponseWriter :=
  let w1 := w.WriteHeader StatusOK
  { w1 with body := w1.body ++ bytes }

/-- Collaborators of the probe plugin.  `GetAgentStatus n` is what the `n`-th call
of `p.StatusCheck.GetAgentStatus()` made while serving one request returns;
`Marshal` is `json.Marshal` (bytes and error). -/
structure Env where
  GetAgentStatus : Nat → AgentStatus
  Marshal : AgentStatus → String × Option Err

/-- The handler returned by `readinessProbeHandler`, applied to a response writer. -/
def readinessProbeHandler (env : Env) (w : ResponseWriter) : ResponseWriter :=
  let stat := env.GetAgentStatus 0
  let statJSON := (env.Marshal stat).1
  if stat.State = OperationalState_OK then
    (w.WriteHeader StatusOK).Write statJSON
  else
    (w.WriteHeader StatusInternalServerError).Write statJSON

/-- The handler returned by `livenessProbeHandler`, applied to a response writer.
The status is read twice: once for the state, once more for the body. -/
def livenessProbeHandler (env : Env) (w : ResponseWriter) : ResponseWriter :=
  let stat := env.GetAgentStatus 0
  let statJSON := (env.Marshal (env.GetAgentStatus 1)).1
  if stat.State = OperationalState_INIT ∨ stat.State = OperationalState_OK then
    (w.WriteHeader StatusOK).Write statJSON
  else
    (w.WriteHeader StatusInternalServerError).Write statJSON

end probe

/-! ## datasync/kvdbsync -/

namespace kvdbsync

/-- A `keyval.ProtoBroker` obtained from the key-value plugin for a key prefix. -/
structure ProtoBroker where
  keyPrefix : String
  deriving DecidableEq, Repr

/-- A `keyval.ProtoWatcher` obtained from the key-value plugin for a key prefix. -/
structure ProtoWatcher where
  keyPrefix : String
  deriving DecidableEq, Repr

/-- A `*syncbase.Watcher`, identified by its allocation number. -/
structure BaseWatcher where
  id : Nat
  deriving DecidableEq, Repr

/-- The struct `watcher{db, dbW, base}` the plugin's `adapter` points to. -/
structure watcher where
  db : ProtoBroker
  dbW : ProtoWatcher
  base : BaseWatcher
  deriving DecidableEq, Repr

/-- The injected `keyval.KvProtoPlugin`. -/
structure KvProtoPlugin where
  NewBroker : String → ProtoBroker
  NewWatcher : String → ProtoWatcher

/-- The injected `servicelabel.ReaderAPI`. -/
structure ReaderAPI where
  GetAgentPrefix : String

/-- A `datasync.WatchRegistration` handed out by the base watcher. -/
structure WatchRegistration where
  resyncName : String
  deriving DecidableEq, Repr

/-- The struct `Plugin`; `none` is a nil interface or nil pointer. -/
structure Plugin where
  KvPlugin : Option KvProtoPlugin
  ServiceLabel : Option ReaderAPI
  PluginName : String
  adapter : Option watcher

/-- Collaborators of the plugin, acting on a collaborator state `σ` (the store and
the subscription tables): `syncbase.NewWatcher`, the base watcher's `Watch`,
the package function `watchAndResyncBrokerKeys` (its first result is discarded by
the caller and left out) and the broker's `Put`. -/
structure Env (σ : Type) where
  NewWatcher : σ → BaseWatcher × σ
  baseWatch : BaseWatcher → String → Option Chan → Option Chan → List String → σ →
    (Option WatchRegistration × Option Err) × σ
  watchAndResyncBrokerKeys : String → Option Chan → Option Chan → watcher → List String → σ →
    Option Err × σ
  dbPut : ProtoBroker → String → String → List String → σ → Option Err × σ

/-- Method `Plugin.Init`: builds the adapter when a key-value plugin is injected. -/
def Plugin.Init {σ : Type} (env : Env σ) (plugin : Plugin) (s : σ) :
    Outcome (Plugin × Option Err) × σ :=
  match plugin.KvPlugin with
  | some kv =>
    match plugin.ServiceLabel with
    | none => (.panicked, s)
    | some label =>
      let db := kv.NewBroker label.GetAgentPrefix
      let dbW := kv.NewWatcher label.GetAgentPrefix
      let (base, s1) := env.NewWatcher s
      (.returned ({ plugin with adapter := some ⟨db, dbW, base⟩ }, none), s1)
  | none => (.returned (plugin, none), s)

/-- Method `Plugin.Watch`. -/
def Plugin.Watch {σ : Type} (env : Env σ) (plugin : Plugin) (resyncName : String)
    (changeChan resyncChan : Option Chan) (keyPrefixes : List String) (s : σ) :
    Outcome (Option WatchRegistration × Option Err) × σ :=
  match plugin.adapter with
  | none => (.panicked, s)
  | some adapter =>
    match env.baseWatch adapter.base resyncName changeChan resyncChan keyPrefixes s with
    | ((_, some err), s1) => (.returned (none, some err), s1)
    | ((reg, none), s1) =>
      match env.watchAndResyncBrokerKeys resyncName changeChan resyncChan adapter keyPrefixes s1 with
      | (some err, s2) => (.returned (none, some err), s2)
      | (none, s2) => (.returned (reg, none), s2)

/-- Method `Plugin.Put`; `data` is the serialised message, `opts` the put options. -/
def Plugin.Put {σ : Type} (env : Env σ) (plugin : Plugin) (key : String) (data : String)
    (opts : List String) (s : σ) : Outcome (Option Err) × σ :=
  match plugin.adapter with
  | none => (.panicked, s)
  | some adapter =>
    let (err, s1) := env.dbPut adapter.db key data opts s
    (.returned err, s1)

/-- Method `Plugin.Close`: the plugin after the call and the error returned. -/
def Plugin.Close (plugin : Plugin) : Plugin × Option Err :=
  (plugin, none)

/-- Method `Plugin.String`. -/
def Plugin.String (plugin : Plugin) : String :=
  if plugin.PluginName.length = 0 then "kvdbsync" else plugin.PluginName

end kvdbsync

/-! ## plugins/linuxplugin -/

namespace linuxplugin

/-- A `context.CancelFunc`: cancels the context with the given number. -/
structure CancelFunc where
  ctx : Nat
  deriving DecidableEq, Repr

/-- A `datasync.WatchDataRegistration`. -/
structure WatchDataRegistration where
  resyncName : String
  deriving DecidableEq, Repr

/-- The value returned by `datasync.GetTransport()`. -/
structure TransportAdapter where
  name : String
  deriving DecidableEq, Repr

/-- The index map created by `nametoidx.NewNameToIdx`. -/
structure NameToIdxRW where
  title : String
  deriving DecidableEq, Repr

/-- A `*LinuxInterfaceConfigurator` after its `Init(ifIndexes)`. -/
structure LinuxInterfaceConfigurator where
  ifIndexes : Option NameToIdxRW
  deriving DecidableEq, Repr

/-- The struct `Plugin`.  `addr` is the address of the struct (what a `*Plugin`
holds); `none` in a field is Go's nil.  The wait group `wg` is part of the
runtime (`Env.wgWaitReturns`). -/
structure Plugin where
  addr : Nat
  transport : Option TransportAdapter
  ifIndexes : Option NameToIdxRW
  ifConfigurator : Option LinuxInterfaceConfigurator
  resyncChan : Option Chan
  changeChan : Option Chan
  watchDataReg : Option WatchDataRegistration
  cancel : Option CancelFunc
  deriving DecidableEq, Repr

/-- An argument of `safeclose.CloseAll`. -/
inductive Resource where
  | watchDataReg (r : Option WatchDataRegistration)
  | chan (c : Option Chan)
  | configurator (c : Option LinuxInterfaceConfigurator)
  deriving DecidableEq, Repr

/-- Observable effects of `Init` and `Close`, in the order they happen. -/
inductive Effect where
  | spawn (ctx : Nat)
  | cancel (ctx : Nat)
  | waitEntered
  | waitReturned
  | closeAll (objs : List Resource)
  deriving DecidableEq, Repr

/-- Package and runtime state: the package variable `gPlugin` (address of the
global instance), the allocation counter for channels and contexts, the contexts
whose cancel function has been invoked, the contexts the started `watchEvents`
goroutines listen on, and the log of effects (oldest first). -/
structure Runtime where
  gPlugin : Option Nat
  next : Nat
  cancelled : List Nat
  goroutines : List Nat
  log : List Effect
  deriving DecidableEq, Repr

/-- The state of a freshly loaded package. -/
def Runtime.initial : Runtime := ⟨none, 0, [], [], []⟩

/-- Collaborators of the plugin: `datasync.GetTransport`, `nametoidx.NewNameToIdx`,
the method `subscribeWatcher` of another file of the package (the watch
registration it stores and the error it returns), whether `wg.Wait()` returns
in a given runtime state, and the error of `safeclose.CloseAll`. -/
structure Env where
  GetTransport : TransportAdapter
  NewNameToIdx : String → NameToIdxRW
  subscribeWatcher : Plugin → Option WatchDataRegistration × Option Err
  wgWaitReturns : Runtime → Bool
  CloseAll : List Resource → Option Err

/-- Statement `make(chan T)`. -/
def Runtime.makeChan (rt : Runtime) : Chan × Runtime :=
  (⟨rt.next⟩, { rt with next := rt.next + 1 })

/-- Call `context.WithCancel(context.Background())`: a new context and its cancel
function. -/
def Runtime.WithCancel (rt : Runtime) : (Nat × CancelFunc) × Runtime :=
  ((rt.next, ⟨rt.next⟩), { rt with next := rt.next + 1 })

/-- Statement `go plugin.watchEvents(ctx)`. -/
def Runtime.goWatchEvents (rt : Runtime) (ctx : Nat) : Runtime :=
  { rt with goroutines := ctx :: rt.goroutines, log := rt.log ++ [.spawn ctx] }

/-- Call of a cancel function. -/
def Runtime.invoke (rt : Runtime) (cancel : CancelFunc) : Runtime :=
  { rt with cancelled := cancel.ctx :: rt.cancelled, log := rt.log ++ [.cancel cancel.ctx] }

/-- Appends an effect to the log. -/
def Runtime.record (rt : Runtime) (e : Effect) : Runtime :=
  { rt with log := rt.log ++ [e] }

/-- Function `plugin()`: the global instance, or a panic when it is nil. -/
def plugin (rt : Runtime) : Outcome Nat :=
  match rt.gPlugin with
  | none => .panicked
  | some p => .returned p

/-- Method `Plugin.Init`: the plugin after the call and the error returned. -/
def Plugin.Init (env : Env) (plugin : Plugin) (rt : Runtime) :
    (Plugin × Option Err) × Runtime :=
  let plugin := { plugin with transport := some env.GetTransport }
  let (resyncChan, rt) := rt.makeChan
  let plugin := { plugin with resyncChan := some resyncChan }
  let (changeChan, rt) := rt.makeChan
  let plugin := { plugin with changeChan := some changeChan }
  let ((ctx, cancel), rt) := rt.WithCancel
  let plugin := { plugin with cancel := some cancel }
  let rt := rt.goWatchEvents ctx
  let plugin := { plugin with ifIndexes := some (env.NewNameToIdx "linux_if_indexes") }
  let plugin := { plugin with ifConfigurator := some ⟨plugin.ifIndexes⟩ }
  match env.subscribeWatcher plugin with
  | (reg, some err) => (({ plugin with watchDataReg := reg }, some err), rt)
  | (reg, none) =>
    (({ plugin with watchDataReg := reg }, none), { rt with gPlugin := some plugin.addr })

/-- Method `Plugin.Close`. -/
def Plugin.Close (env : Env) (plugin : Plugin) (rt : Runtime) :
    Outcome (Option Err) × Runtime :=
  match plugin.cancel with
  | none => (.panicked, rt)
  | some cancel =>
    let rt := rt.invoke cancel
    let rt := rt.record .waitEntered
    if env.wgWaitReturns rt then
      let rt := rt.record .waitReturned
      let objs := [Resource.watchDataReg plugin.watchDataReg, Resource.chan plugin.changeChan,
        Resource.chan plugin.resyncChan, Resource.configurator plugin.ifConfigurator]
      let rt := rt.record (.closeAll objs)
      (.returned (env.CloseAll objs), rt)
    else
      (.blocked, rt)

/-- The effects logged between an earlier runtime state and a later one. -/
def effectsSince (before after : Runtime) : List Effect :=
  after.log.drop before.log.length

/-- The workers started between two runtime states: contexts of goroutines of the
later state that the earlier state does not have. -/
def startedSince (before after : Runtime) : List Nat :=
  after.goroutines.filter (fun c => !before.goroutines.contains c)

/-- Every worker in the list has been signalled to stop: the cancel function of
its context has been invoked. -/
def allSignalled (rt : Runtime) (workers : List Nat) : Bool :=
  workers.all (fun c => rt.cancelled.contains c)

end linuxplugin

/-! ## The initial resync of a subscription -/

namespace kvdbsync

/-- A `datasync.ChangeEvent`: key, value and the store revision. -/
structure ChangeEvent where
  key : String
  value : String
  revision : Nat
  deriving DecidableEq, Repr

/-- A `datasync.ResyncEvent`: the registration it targets and the full content of
the subscribed key prefixes. -/
structure ResyncEvent where
  name : String
  items : List (String × String)
  deriving DecidableEq, Repr

/-- One delivery to the subscriber: a resync event on the resync channel or a
change event on the change channel. -/
inductive Delivery where
  | resync (ev : ResyncEvent)
  | change (ev : ChangeEvent)
  deriving DecidableEq, Repr

/-- Where the initial resync of a subscription stands: the full listing is being
read, it has failed, or the resync event has been delivered. -/
inductive Phase where
  | listing
  | failed
  | live
  deriving DecidableEq, Repr

/-- Modelled from the spec: the state kept by `watchAndResyncBrokerKeys` and the
workers it starts (a file of the package not among the files embedded here) for one
subscription, after section 4.2 of the design document: the change events
buffered while the snapshot is read, and what has been delivered on the two
channels, oldest first. -/
structure Subscription where
  name : String
  phase : Phase
  buffered : List ChangeEvent
  delivered : List Delivery
  deriving DecidableEq, Repr

/-- What can happen to a subscription: the store reports a change, the full
listing completes with the items read, the listing fails, the caller retries
the resync after a failure, or a resync is triggered again from outside
(section 4.2: "optionally again on external trigger"). -/
inductive Input where
  | storeChange (ev : ChangeEvent)
  | listingDone (items : List (String × String))
  | listingFailed
  | retry
  | trigger
  deriving DecidableEq, Repr

/-- Modelled from the spec: one step of the resync orchestrator (section 4.2).
Changes arriving before the resync event is delivered are buffered, not dropped;
when the listing completes one resync event is pushed onto the resync channel and
the buffered changes are then released onto the change channel in arrival order;
a failed listing leaves the registration usable for a retry.  An external trigger
on a live subscription starts a new resync cycle with the same ordering: changes
arriving from then on are buffered until the new resync event is delivered. -/
def Subscription.step (sub : Subscription) : Input → Subscription
  | .storeChange ev =>
    match sub.phase with
    | .live => { sub with delivered := sub.delivered ++ [.change ev] }
    | _ => { sub with buffered := sub.buffered ++ [ev] }
  | .listingDone items =>
    match sub.phase with
    | .listing =>
      { sub with
        phase := .live
        buffered := []
        delivered := sub.delivered ++ [.resync ⟨sub.name, items⟩] ++ sub.buffered.map .change }
    | _ => sub
  | .listingFailed =>
    match sub.phase with
    | .listing => { sub with phase := .failed }
    | _ => sub
  | .retry =>
    match sub.phase with
    | .failed => { sub with phase := .listing }
    | _ => sub
  | .trigger =>
    match sub.phase with
    | .live => { sub with phase := .listing }
    | _ => sub

/-- Runs a subscription over a sequence of inputs. -/
def Subscription.run (sub : Subscription) (ins : List Input) : Subscription :=
  ins.foldl Subscription.step sub

/-- The delivery is a change event. -/
def Delivery.isChange : Delivery → Bool
  | .change _ => true
  | .resync _ => false

end kvdbsync

/-! ## The name-to-index registry -/

namespace nametoidx

/-- Modelled from the spec: an `IndexEntry` of the registry (section 3 of the design
document). -/
structure IndexEntry where
  name : String
  index : Nat
  metadata : String
  deriving DecidableEq, Repr

/-- Modelled from the spec: the registry created by `nametoidx.NewNameToIdx`
(package `idxvpp/nametoidx`, not among the files embedded here), after sections 3 and 4.4 of
the design document: the registered entries and the monotonic counter holding
the last index handed out.  Index 0 is reserved as "not found"; the counter is a
natural number, as a counter that is monotonic and never reuses a value does not
wrap around. -/
structure Registry where
  entries : List IndexEntry
  counter : Nat
  deriving DecidableEq, Repr

/-- Modelled from the spec: the empty registry `NewNameToIdx` returns. -/
def NewNameToIdx : Registry := ⟨[], 0⟩

/-- Modelled from the spec: `LookupByName(name) (index, found)`. -/
def Registry.LookupByName (r : Registry) (name : String) : Nat × Bool :=
  match r.entries.find? (fun e => e.name == name) with
  | some e => (e.index, true)
  | none => (0, false)

/-- Modelled from the spec: `LookupByIndex(index) (name, found)`. -/
def Registry.LookupByIndex (r : Registry) (index : Nat) : String × Bool :=
  match r.entries.find? (fun e => e.index == index) with
  | some e => (e.name, true)
  | none => ("", false)

/-- Modelled from the spec: `Register(name, metadata) (index, err)` fails with
`AlreadyExists` if the name is registered, otherwise allocates the next unused
index from the counter and returns it. -/
def Registry.Register (r : Registry) (name metadata : String) : (Nat × Option Err) × Registry :=
  if (r.LookupByName name).2 then
    ((0, some .AlreadyExists), r)
  else
    let index := r.counter + 1
    ((index, none), { entries := r.entries ++ [⟨name, index, metadata⟩], counter := index })

/-- Modelled from the spec: `Unregister(name)` fails with `NotFound` if the name is
absent, otherwise removes both mapping directions. -/
def Registry.Unregister (r : Registry) (name : String) : Option Err × Registry :=
  if (r.LookupByName name).2 then
    (none, { r with entries := r.entries.filter (fun e => !(e.name == name)) })
  else
    (some .NotFound, r)

/-- A call made on a registry. -/
inductive Call where
  | Register (name metadata : String)
  | Unregister (name : String)
  deriving DecidableEq, Repr

/-- Runs a sequence of calls on a registry; returns the final registry and the
indices returned by the successful `Register` calls, in call order. -/
def Registry.run : Registry → List Call → Registry × List Nat
  | r, [] => (r, [])
  | r, .Register name metadata :: cs =>
    match r.Register name metadata with
    | ((index, none), r1) => ((r1.run cs).1, index :: (r1.run cs).2)
    | ((_, some _), r1) => r1.run cs
  | r, .Unregister name :: cs => (r.Unregister name).2.run cs

end nametoidx

/-! ## Sample collaborators -/

namespace kvdbsync

/-- A call received by a collaborator of the plugin. -/
inductive Call where
  | NewWatcher
  | baseWatch (resyncName : String) (keyPrefixes : List String)
  | watchAndResyncBrokerKeys (resyncName : String) (keyPrefixes : List String)
  | dbPut (key : String)
  deriving DecidableEq, Repr

/-- Collaborators that keep a log of the calls they receive.  The base watcher
refuses a resync name it has already registered and accepts any list of key
prefixes; the initial resync fails when one of the key prefixes is the empty string;
the broker stores every value. -/
def loggingEnv : Env (List Call) where
  NewWatcher := fun s => (⟨s.length⟩, s ++ [.NewWatcher])
  baseWatch := fun _ name _ _ ps s =>
    if s.any (fun c => match c with | .baseWatch n _ => n == name | _ => false) then
      ((none, some .DuplicateRegistration), s ++ [.baseWatch name ps])
    else
      ((some ⟨name⟩, none), s ++ [.baseWatch name ps])
  watchAndResyncBrokerKeys := fun name _ _ _ ps s =>
    if ps.contains "" then
      (some .ResyncFailed, s ++ [.watchAndResyncBrokerKeys name ps])
    else
      (none, s ++ [.watchAndResyncBrokerKeys name ps])
  dbPut := fun _ key _ _ s => (none, s ++ [.dbPut key])

/-- A key-value plugin whose brokers and watchers remember their key prefix. -/
def sampleKvPlugin : KvProtoPlugin := ⟨fun p => ⟨p⟩, fun p => ⟨p⟩⟩

/-- A plugin with its dependencies injected, before `Init`. -/
def injectedPlugin : Plugin := ⟨some sampleKvPlugin, some ⟨"/vnf-agent/vpp1/"⟩, "", none⟩

/-- A plugin with no key-value plugin injected, before `Init`. -/
def barePlugin : Plugin := ⟨none, some ⟨"/vnf-agent/vpp1/"⟩, "", none⟩

/-- A plugin whose adapter has been built. -/
def readyPlugin : Plugin :=
  ⟨some sampleKvPlugin, some ⟨"/vnf-agent/vpp1/"⟩, "",
    some ⟨⟨"/vnf-agent/vpp1/"⟩, ⟨"/vnf-agent/vpp1/"⟩, ⟨0⟩⟩⟩

end kvdbsync

namespace linuxplugin

/-- Collaborators whose `subscribeWatcher` succeeds.  `wg.Wait()` returns once the
context of every started worker has been cancelled; `CloseAll` reports no
error. -/
def workingEnv : Env where
  GetTransport := ⟨"etcd"⟩
  NewNameToIdx := fun title => ⟨title⟩
  subscribeWatcher := fun _ => (some ⟨"linuxplugin"⟩, none)
  wgWaitReturns := fun rt => rt.goroutines.all (fun c => rt.cancelled.contains c)
  CloseAll := fun _ => none

/-- Collaborators whose `subscribeWatcher` fails: the store cannot be reached. -/
def failingEnv : Env :=
  { workingEnv with subscribeWatcher := fun _ => (none, some .BackendUnavailable) }

/-- A plugin struct at address 1 with all fields zero, before `Init`. -/
def newPlugin : Plugin := ⟨1, none, none, none, none, none, none, none⟩

/-- A plugin struct at the given address with all fields zero, before `Init`. -/
def newPluginAt (addr : Nat) : Plugin := ⟨addr, none, none, none, none, none, none, none⟩

/-- Runs `Init` on a sequence of plugins, each with the collaborators it meets, one
call after the other on the same package state.  Returns the final state and,
in call order, the address of each plugin with the error its `Init` returned. -/
def runInits (rt : Runtime) : List (Env × Plugin) → Runtime × List (Nat × Option Err)
  | [] => (rt, [])
  | (env, p) :: calls =>
    ((runInits (p.Init env rt).2 calls).1,
      (p.addr, (p.Init env rt).1.2) :: (runInits (p.Init env rt).2 calls).2)

/-- The address of the plugin whose `Init` returned nil most recently, in a list of
`Init` results in call order. -/
def lastSucceeded : List (Nat × Option Err) → Option Nat
  | [] => none
  | (addr, err) :: results =>
    match lastSucceeded results with
    | some later => some later
    | none => if err = none then some addr else none

end linuxplugin

/-! # Theorems -/

/-! ## health/probe -/

namespace probe

/-- Status code and body written by the readiness handler on a fresh writer. -/
theorem readinessProbeHandler_fresh (env : Env) :
    readinessProbeHandler env ResponseWriter.fresh =
      ⟨some (if (env.GetAgentStatus 0).State = OperationalState_OK then 200 else 500),
        (env.Marshal (env.GetAgentStatus 0)).1⟩ := by
  unfold readinessProbeHandler
  by_cases h : (env.GetAgentStatus 0).State = OperationalState_OK <;>
    simp [h, ResponseWriter.fresh, ResponseWriter.WriteHeader, ResponseWriter.Write,
      StatusOK, StatusInternalServerError]

/-- Status code and body written by the liveness handler on a fresh writer. -/
theorem livenessProbeHandler_fresh (env : Env) :
    livenessProbeHandler env ResponseWriter.fresh =
      ⟨some (if (env.GetAgentStatus 0).State = OperationalState_INIT ∨
          (env.GetAgentStatus 0).State = OperationalState_OK then 200 else 500),
        (env.Marshal (env.GetAgentStatus 1)).1⟩ := by
  unfold livenessProbeHandler
  by_cases h : (env.GetAgentStatus 0).State = OperationalState_INIT ∨
      (env.GetAgentStatus 0).State = OperationalState_OK <;>
    simp [h, ResponseWriter.fresh, ResponseWriter.WriteHeader, ResponseWriter.Write,
      StatusOK, StatusInternalServerError]

/-- C8: for every agent status the status reader returns, the readiness probe
handler answers 200 exactly when the state is OK and 500 exactly when it is any
other state, and in both cases the body is the JSON encoding of that status. -/
theorem readiness_code_and_body (env : Env) :
    ((readinessProbeHandler env ResponseWriter.fresh).status = some 200 ↔
      (env.GetAgentStatus 0).State = OperationalState_OK) ∧
    ((readinessProbeHandler env ResponseWriter.fresh).status = some 500 ↔
      (env.GetAgentStatus 0).State ≠ OperationalState_OK) ∧
    (readinessProbeHandler env ResponseWriter.fresh).body =
      (env.Marshal (env.GetAgentStatus 0)).1 := by
  rw [readinessProbeHandler_fresh]
  by_cases h : (env.GetAgentStatus 0).State = OperationalState_OK <;> simp [h]

/-- C9: for every agent status, the liveness probe handler answers 200 exactly when
the state is INIT or OK and 500 otherwise; whenever the readiness probe answers 200
for that status the liveness probe does too, and the two status codes differ
exactly when the state is INIT. -/
theorem liveness_code_and_readiness (env : Env) :
    ((livenessProbeHandler env ResponseWriter.fresh).status = some 200 ↔
      ((env.GetAgentStatus 0).State = OperationalState_INIT ∨
        (env.GetAgentStatus 0).State = OperationalState_OK)) ∧
    ((livenessProbeHandler env ResponseWriter.fresh).status = some 500 ↔
      ¬ ((env.GetAgentStatus 0).State = OperationalState_INIT ∨
        (env.GetAgentStatus 0).State = OperationalState_OK)) ∧
    ((readinessProbeHandler env ResponseWriter.fresh).status = some 200 →
      (livenessProbeHandler env ResponseWriter.fresh).status = some 200) ∧
    ((readinessProbeHandler env ResponseWriter.fresh).status ≠
        (livenessProbeHandler env ResponseWriter.fresh).status ↔
      (env.GetAgentStatus 0).State = OperationalState_INIT) := by
  rw [readinessProbeHandler_fresh, livenessProbeHandler_fresh]
  have hne : OperationalState_INIT ≠ OperationalState_OK := by decide
  by_cases h1 : (env.GetAgentStatus 0).State = OperationalState_OK
  · simp [h1, hne, hne.symm]
  · by_cases h0 : (env.GetAgentStatus 0).State = OperationalState_INIT <;>
      simp [h0, h1, hne, hne.symm]

end probe

/-! ## datasync/kvdbsync -/

namespace kvdbsync

/-- What `Watch` does on a plugin whose adapter is set, by the results of its two
steps. -/
theorem Watch_of_adapter {σ : Type} (env : Env σ) (plugin : Plugin) (adapter : watcher)
    (resyncName : String) (changeChan resyncChan : Option Chan) (keyPrefixes : List String)
    (s : σ) (h : plugin.adapter = some adapter) :
    plugin.Watch env resyncName changeChan resyncChan keyPrefixes s =
      match env.baseWatch adapter.base resyncName changeChan resyncChan keyPrefixes s with
      | ((_, some err), s1) => (.returned (none, some err), s1)
      | ((reg, none), s1) =>
        match env.watchAndResyncBrokerKeys resyncName changeChan resyncChan adapter
          keyPrefixes s1 with
        | (some err, s2) => (.returned (none, some err), s2)
        | (none, s2) => (.returned (reg, none), s2) := by
  unfold Plugin.Watch
  rw [h]

/-- C3: on a plugin whose adapter is set, `Watch` returns `(nil, err)` with the
error of the first failing step: a failure of `base.Watch` is returned without
`watchAndResyncBrokerKeys` being attempted (the collaborator state is the one
`base.Watch` left), a failure of `watchAndResyncBrokerKeys` is returned otherwise,
and the registration produced by `base.Watch` is returned with a nil error exactly
when both steps succeed. -/
theorem Watch_propagates_first_failure {σ : Type} (env : Env σ) (plugin : Plugin)
    (adapter : watcher) (resyncName : String) (changeChan resyncChan : Option Chan)
    (keyPrefixes : List String) (s : σ) (h : plugin.adapter = some adapter) :
    (∀ e, (env.baseWatch adapter.base resyncName changeChan resyncChan keyPrefixes s).1.2 = some e →
      plugin.Watch env resyncName changeChan resyncChan keyPrefixes s =
        (.returned (none, some e),
          (env.baseWatch adapter.base resyncName changeChan resyncChan keyPrefixes s).2)) ∧
    ((env.baseWatch adapter.base resyncName changeChan resyncChan keyPrefixes s).1.2 = none →
      ∀ e, (env.watchAndResyncBrokerKeys resyncName changeChan resyncChan adapter keyPrefixes
          (env.baseWatch adapter.base resyncName changeChan resyncChan keyPrefixes s).2).1 = some e →
      plugin.Watch env resyncName changeChan resyncChan keyPrefixes s =
        (.returned (none, some e),
          (env.watchAndResyncBrokerKeys resyncName changeChan resyncChan adapter keyPrefixes
            (env.baseWatch adapter.base resyncName changeChan resyncChan keyPrefixes s).2).2)) ∧
    ((∃ reg, (plugin.Watch env resyncName changeChan resyncChan keyPrefixes s).1 =
        .returned (reg, none)) ↔
      ((env.baseWatch adapter.base resyncName changeChan resyncChan keyPrefixes s).1.2 = none ∧
        (env.watchAndResyncBrokerKeys resyncName changeChan resyncChan adapter keyPrefixes
          (env.baseWatch adapter.base resyncName changeChan resyncChan keyPrefixes s).2).1 = none)) ∧
    (∀ reg, (plugin.Watch env resyncName changeChan resyncChan keyPrefixes s).1 =
        .returned (reg, none) →
      reg = (env.baseWatch adapter.base resyncName changeChan resyncChan keyPrefixes s).1.1) := by
  rw [Watch_of_adapter env plugin adapter resyncName changeChan resyncChan keyPrefixes s h]
  rcases hb : env.baseWatch adapter.base resyncName changeChan resyncChan keyPrefixes s with
    ⟨⟨reg, berr⟩, s1⟩
  cases berr with
  | some e => simp
  | none =>
    rcases hr : env.watchAndResyncBrokerKeys resyncName changeChan resyncChan adapter
      keyPrefixes s1 with ⟨rerr, s2⟩
    cases rerr with
    | some e => simp [hr]
    | none =>
      simp only [hr]
      refine ⟨by simp, by simp, by simp, ?_⟩
      intro reg0 h0
      simp only [Outcome.returned.injEq, Prod.mk.injEq, and_true] at h0
      exact h0.symm

/-- C3, at a concrete input: the base watcher has already registered the resync
name, so `base.Watch` fails; `Watch` returns that error and the call log shows that
`watchAndResyncBrokerKeys` was not called. -/
theorem Watch_propagates_first_failure_witness :
    readyPlugin.adapter = some ⟨⟨"/vnf-agent/vpp1/"⟩, ⟨"/vnf-agent/vpp1/"⟩, ⟨0⟩⟩ ∧
    readyPlugin.Watch loggingEnv "linuxplugin" (some ⟨0⟩) (some ⟨1⟩) ["/linux/if/"]
        [.baseWatch "linuxplugin" ["/linux/if/"]] =
      (.returned (none, some .DuplicateRegistration),
        [.baseWatch "linuxplugin" ["/linux/if/"], .baseWatch "linuxplugin" ["/linux/if/"]]) :=
  ⟨rfl, (Watch_propagates_first_failure loggingEnv readyPlugin
    ⟨⟨"/vnf-agent/vpp1/"⟩, ⟨"/vnf-agent/vpp1/"⟩, ⟨0⟩⟩ "linuxplugin" (some ⟨0⟩) (some ⟨1⟩)
    ["/linux/if/"] [.baseWatch "linuxplugin" ["/linux/if/"]] rfl).1 .DuplicateRegistration rfl⟩

/-- C6 fails as stated: with collaborators that accept an empty list of key
prefixes, `Watch` called with no key prefixes returns the registration and a nil
error, having passed the empty list to both steps. -/
theorem Watch_empty_keyPrefixes_accepted :
    readyPlugin.Watch loggingEnv "linuxplugin" (some ⟨0⟩) (some ⟨1⟩) [] [] =
      (.returned (some ⟨"linuxplugin"⟩, none),
        [.baseWatch "linuxplugin" [], .watchAndResyncBrokerKeys "linuxplugin" []]) ∧
    (readyPlugin.Watch loggingEnv "linuxplugin" (some ⟨0⟩) (some ⟨1⟩) [] []).1 ≠
      .returned (none, some .InvalidArgument) :=
  ⟨rfl, by decide⟩

/-- C6, amended: `Watch` does not check its key prefixes.  Called with an empty list
on a plugin whose adapter is set, it passes the empty list to `base.Watch` and
`watchAndResyncBrokerKeys`: it returns the registration with a nil error when both
accept it, and it returns an `InvalidArgument` error only if one of the two steps
returned that error for the empty list. -/
theorem Watch_empty_keyPrefixes_delegates {σ : Type} (env : Env σ) (plugin : Plugin)
    (adapter : watcher) (resyncName : String) (changeChan resyncChan : Option Chan) (s : σ)
    (h : plugin.adapter = some adapter) :
    (((env.baseWatch adapter.base resyncName changeChan resyncChan [] s).1.2 = none ∧
        (env.watchAndResyncBrokerKeys resyncName changeChan resyncChan adapter []
          (env.baseWatch adapter.base resyncName changeChan resyncChan [] s).2).1 = none) →
      plugin.Watch env resyncName changeChan resyncChan [] s =
        (.returned ((env.baseWatch adapter.base resyncName changeChan resyncChan [] s).1.1, none),
          (env.watchAndResyncBrokerKeys resyncName changeChan resyncChan adapter []
            (env.baseWatch adapter.base resyncName changeChan resyncChan [] s).2).2)) ∧
    (∀ reg, (plugin.Watch env resyncName changeChan resyncChan [] s).1 =
        .returned (reg, some .InvalidArgument) →
      ((env.baseWatch adapter.base resyncName changeChan resyncChan [] s).1.2 =
          some .InvalidArgument ∨
        (env.watchAndResyncBrokerKeys resyncName changeChan resyncChan adapter []
          (env.baseWatch adapter.base resyncName changeChan resyncChan [] s).2).1 =
          some .InvalidArgument)) := by
  rw [Watch_of_adapter env plugin adapter resyncName changeChan resyncChan [] s h]
  rcases hb : env.baseWatch adapter.base resyncName changeChan resyncChan [] s with
    ⟨⟨reg, berr⟩, s1⟩
  cases berr with
  | some e =>
    refine ⟨by simp, ?_⟩
    intro reg0 h0
    simp only [Outcome.returned.injEq, Prod.mk.injEq] at h0
    exact Or.inl h0.2
  | none =>
    rcases hr : env.watchAndResyncBrokerKeys resyncName changeChan resyncChan adapter [] s1 with
      ⟨rerr, s2⟩
    cases rerr with
    | some e =>
      refine ⟨by simp [hr], ?_⟩
      intro reg0 h0
      simp only [hr, Outcome.returned.injEq, Prod.mk.injEq] at h0
      exact Or.inr h0.2
    | none =>
      refine ⟨by simp [hr], ?_⟩
      intro reg0 h0
      simp [hr] at h0

/-- C6, amended, at a concrete input: the logging collaborators accept the empty
list, and `Watch` returns the registration of the base watcher. -/
theorem Watch_empty_keyPrefixes_delegates_witness :
    readyPlugin.adapter = some ⟨⟨"/vnf-agent/vpp1/"⟩, ⟨"/vnf-agent/vpp1/"⟩, ⟨0⟩⟩ ∧
    readyPlugin.Watch loggingEnv "r" none none [] [] =
      (.returned (some ⟨"r"⟩, none), [.baseWatch "r" [], .watchAndResyncBrokerKeys "r" []]) :=
  ⟨rfl, (Watch_empty_keyPrefixes_delegates loggingEnv readyPlugin
    ⟨⟨"/vnf-agent/vpp1/"⟩, ⟨"/vnf-agent/vpp1/"⟩, ⟨0⟩⟩ "r" none none [] rfl).1 ⟨rfl, rfl⟩⟩

/-- C7 fails as stated: after `Close` has returned, `Put` and `Watch` still reach the
store and the base watcher (the call log records the calls) and return a nil
error, not `Stopped`. -/
theorem Put_Watch_after_Close_not_Stopped :
    readyPlugin.Close.2 = none ∧
    readyPlugin.Close.1.Put loggingEnv "/linux/if/eth0" "up" [] [] =
      (.returned none, [.dbPut "/linux/if/eth0"]) ∧
    readyPlugin.Close.1.Watch loggingEnv "linuxplugin" (some ⟨0⟩) (some ⟨1⟩) ["/linux/if/"] [] =
      (.returned (some ⟨"linuxplugin"⟩, none),
        [.baseWatch "linuxplugin" ["/linux/if/"],
          .watchAndResyncBrokerKeys "linuxplugin" ["/linux/if/"]]) :=
  ⟨rfl, rfl, rfl⟩

/-- C7, amended: `Close` returns nil and leaves the plugin as it was, so on a plugin
whose adapter is set and on which `Close` has returned, `Put` still delegates to
the store and returns the store's result, and `Watch` does what it did before
`Close`; neither adds a `Stopped` error of its own. -/
theorem Close_keeps_Put_Watch {σ : Type} (env : Env σ) (plugin : Plugin) (adapter : watcher)
    (h : plugin.adapter = some adapter) :
    plugin.Close.2 = none ∧
    plugin.Close.1.adapter = some adapter ∧
    (∀ key data opts s, plugin.Close.1.Put env key data opts s =
      (.returned (env.dbPut adapter.db key data opts s).1,
        (env.dbPut adapter.db key data opts s).2)) ∧
    (∀ resyncName changeChan resyncChan keyPrefixes s,
      plugin.Close.1.Watch env resyncName changeChan resyncChan keyPrefixes s =
        plugin.Watch env resyncName changeChan resyncChan keyPrefixes s) := by
  refine ⟨rfl, h, ?_, fun _ _ _ _ _ => rfl⟩
  intro key data opts s
  show plugin.Put env key data opts s = _
  unfold Plugin.Put
  rw [h]

/-- C7, amended, at a concrete input: `Put` after `Close` stores the value. -/
theorem Close_keeps_Put_Watch_witness :
    readyPlugin.adapter = some ⟨⟨"/vnf-agent/vpp1/"⟩, ⟨"/vnf-agent/vpp1/"⟩, ⟨0⟩⟩ ∧
    readyPlugin.Close.1.Put loggingEnv "k" "v" [] [] = (.returned none, [.dbPut "k"]) :=
  ⟨rfl, (Close_keeps_Put_Watch loggingEnv readyPlugin
    ⟨⟨"/vnf-agent/vpp1/"⟩, ⟨"/vnf-agent/vpp1/"⟩, ⟨0⟩⟩ rfl).2.2.1 "k" "v" [] []⟩

/-- C10 fails as stated: on a plugin with no key-value plugin injected `Init`
returns nil and the adapter is still nil, and a following `Put` or `Watch`
dereferences it and panics. -/
theorem Init_without_KvPlugin_leaves_adapter_nil :
    barePlugin.Init loggingEnv [] = (.returned (barePlugin, none), []) ∧
    barePlugin.adapter = none ∧
    (barePlugin.Put loggingEnv "k" "v" [] []).1 = .panicked ∧
    (barePlugin.Watch loggingEnv "r" none none ["/linux/if/"] []).1 = .panicked :=
  ⟨rfl, rfl, rfl, rfl⟩

/-- C10, amended: on a plugin with a key-value plugin injected, after `Init` has
returned nil the adapter is set, built from the broker and the watcher of that
key-value plugin, and a following `Watch` or `Put` does not panic; on a plugin
with no key-value plugin `Init` returns nil and leaves the adapter as it was. -/
theorem Init_sets_adapter_of_KvPlugin {σ : Type} (env : Env σ) (plugin after : Plugin)
    (kv : KvProtoPlugin) (s s1 : σ) (hkv : plugin.KvPlugin = some kv)
    (hinit : plugin.Init env s = (.returned (after, none), s1)) :
    (∃ label base, plugin.ServiceLabel = some label ∧
      after.adapter = some ⟨kv.NewBroker label.GetAgentPrefix,
        kv.NewWatcher label.GetAgentPrefix, base⟩) ∧
    (∀ key data opts s2, (after.Put env key data opts s2).1 ≠ .panicked) ∧
    (∀ resyncName changeChan resyncChan keyPrefixes s2,
      (after.Watch env resyncName changeChan resyncChan keyPrefixes s2).1 ≠ .panicked) ∧
    (∀ (other : Plugin) (s0 : σ), other.KvPlugin = none →
      other.Init env s0 = (.returned (other, none), s0)) := by
  unfold Plugin.Init at hinit
  rw [hkv] at hinit
  cases hl : plugin.ServiceLabel with
  | none => simp [hl] at hinit
  | some label =>
    simp only [hl, Prod.mk.injEq, Outcome.returned.injEq, and_true] at hinit
    obtain ⟨hafter, _⟩ := hinit
    subst hafter
    refine ⟨⟨label, (env.NewWatcher s).1, rfl, rfl⟩, ?_, ?_, ?_⟩
    · intro key data opts s2
      simp [Plugin.Put]
    · intro resyncName changeChan resyncChan keyPrefixes s2
      rw [Watch_of_adapter env _ _ resyncName changeChan resyncChan keyPrefixes s2 rfl]
      rcases env.baseWatch (env.NewWatcher s).1 resyncName changeChan resyncChan keyPrefixes s2
        with ⟨⟨reg, berr⟩, s3⟩
      cases berr with
      | some e => simp
      | none =>
        simp only
        split <;> simp
    · intro other s0 h0
      unfold Plugin.Init
      rw [h0]

/-- C10, amended, at a concrete input: `Init` on a plugin with its dependencies
injected builds the adapter. -/
theorem Init_sets_adapter_of_KvPlugin_witness :
    injectedPlugin.KvPlugin = some sampleKvPlugin ∧
    injectedPlugin.Init loggingEnv [] = (.returned (readyPlugin, none), [.NewWatcher]) ∧
    (readyPlugin.Put loggingEnv "k" "v" [] [.NewWatcher]).1 ≠ .panicked :=
  ⟨rfl, rfl, (Init_sets_adapter_of_KvPlugin loggingEnv injectedPlugin readyPlugin
    sampleKvPlugin [] [.NewWatcher] rfl rfl).2.1 "k" "v" [] [.NewWatcher]⟩

end kvdbsync

/-! ## plugins/linuxplugin -/

namespace linuxplugin

/-- The effects logged since a state, when the later log extends the earlier one. -/
theorem effectsSince_append (before after : Runtime) (es : List Effect)
    (h : after.log = before.log ++ es) : effectsSince before after = es := by
  unfold effectsSince
  rw [h, List.drop_left]

/-- What `Init` does, by the result of `subscribeWatcher` on the plugin prepared
for it. -/
theorem Init_eq (env : Env) (plugin : Plugin) (rt : Runtime) :
    plugin.Init env rt =
      match env.subscribeWatcher
        { addr := plugin.addr
          transport := some env.GetTransport
          ifIndexes := some (env.NewNameToIdx "linux_if_indexes")
          ifConfigurator := some ⟨some (env.NewNameToIdx "linux_if_indexes")⟩
          resyncChan := some ⟨rt.next⟩
          changeChan := some ⟨rt.next + 1⟩
          watchDataReg := plugin.watchDataReg
          cancel := some ⟨rt.next + 2⟩ } with
      | (reg, err) =>
        (({ addr := plugin.addr
            transport := some env.GetTransport
            ifIndexes := some (env.NewNameToIdx "linux_if_indexes")
            ifConfigurator := some ⟨some (env.NewNameToIdx "linux_if_indexes")⟩
            resyncChan := some ⟨rt.next⟩
            changeChan := some ⟨rt.next + 1⟩
            watchDataReg := reg
            cancel := some ⟨rt.next + 2⟩ }, err),
          { gPlugin := if err = none then some plugin.addr else rt.gPlugin
            next := rt.next + 3
            cancelled := rt.cancelled
            goroutines := (rt.next + 2) :: rt.goroutines
            log := rt.log ++ [.spawn (rt.next + 2)] }) := by
  unfold Plugin.Init
  simp only [Runtime.makeChan, Runtime.WithCancel, Runtime.goWatchEvents]
  split <;> rename_i heq <;> simp [heq]

/-- What `Close` does on a plugin whose cancel function is set, when `wg.Wait()`
returns. -/
theorem Close_of_wait_returns (env : Env) (plugin : Plugin) (cancel : CancelFunc) (rt : Runtime)
    (h : plugin.cancel = some cancel)
    (hw : env.wgWaitReturns ((rt.invoke cancel).record .waitEntered) = true) :
    plugin.Close env rt =
      (.returned (env.CloseAll [.watchDataReg plugin.watchDataReg, .chan plugin.changeChan,
          .chan plugin.resyncChan, .configurator plugin.ifConfigurator]),
        { rt with
          cancelled := cancel.ctx :: rt.cancelled
          log := rt.log ++ [.cancel cancel.ctx, .waitEntered, .waitReturned,
            .closeAll [.watchDataReg plugin.watchDataReg, .chan plugin.changeChan,
              .chan plugin.resyncChan, .configurator plugin.ifConfigurator]] }) := by
  unfold Plugin.Close
  rw [h]
  simp only [hw, if_true]
  simp [Runtime.record, Runtime.invoke]

/-- What `Close` does on a plugin whose cancel function is set, when `wg.Wait()`
never returns. -/
theorem Close_of_wait_blocks (env : Env) (plugin : Plugin) (cancel : CancelFunc) (rt : Runtime)
    (h : plugin.cancel = some cancel)
    (hw : env.wgWaitReturns ((rt.invoke cancel).record .waitEntered) = false) :
    plugin.Close env rt =
      (.blocked,
        { rt with
          cancelled := cancel.ctx :: rt.cancelled
          log := rt.log ++ [.cancel cancel.ctx, .waitEntered] }) := by
  unfold Plugin.Close
  rw [h]
  simp only [hw]
  simp [Runtime.record, Runtime.invoke]

/-- C1: on an initialised plugin (its cancel function is set), the effects of
`Close` start with the call of the cancel function followed by the entry into
`wg.Wait()`.  When the wait returns, the effects are exactly: cancel, wait entered,
wait returned, release of the watch registration, the change channel, the resync
channel and the configurator, and `Close` returns the error of that release step.
When the wait never returns, `Close` does not return and releases nothing.  In
every run, a release is preceded by exactly cancel, wait entered, wait returned,
and whatever error `Close` returns is the one the release step reported. -/
theorem Close_cancels_waits_then_releases (env : Env) (plugin : Plugin) (cancel : CancelFunc)
    (rt : Runtime) (h : plugin.cancel = some cancel) :
    (env.wgWaitReturns ((rt.invoke cancel).record .waitEntered) = true →
      (plugin.Close env rt).1 =
        .returned (env.CloseAll [.watchDataReg plugin.watchDataReg, .chan plugin.changeChan,
          .chan plugin.resyncChan, .configurator plugin.ifConfigurator]) ∧
      effectsSince rt (plugin.Close env rt).2 =
        [.cancel cancel.ctx, .waitEntered, .waitReturned,
          .closeAll [.watchDataReg plugin.watchDataReg, .chan plugin.changeChan,
            .chan plugin.resyncChan, .configurator plugin.ifConfigurator]]) ∧
    (env.wgWaitReturns ((rt.invoke cancel).record .waitEntered) = false →
      (plugin.Close env rt).1 = .blocked ∧
      effectsSince rt (plugin.Close env rt).2 = [.cancel cancel.ctx, .waitEntered]) ∧
    (∀ pre objs post, effectsSince rt (plugin.Close env rt).2 = pre ++ .closeAll objs :: post →
      pre = [.cancel cancel.ctx, .waitEntered, .waitReturned]) ∧
    (∀ err, (plugin.Close env rt).1 = .returned err →
      err = env.CloseAll [.watchDataReg plugin.watchDataReg, .chan plugin.changeChan,
        .chan plugin.resyncChan, .configurator plugin.ifConfigurator]) := by
  cases hw : env.wgWaitReturns ((rt.invoke cancel).record .waitEntered) with
  | true =>
    rw [Close_of_wait_returns env plugin cancel rt h hw]
    have he := effectsSince_append rt
      { rt with
        cancelled := cancel.ctx :: rt.cancelled
        log := rt.log ++ [.cancel cancel.ctx, .waitEntered, .waitReturned,
          .closeAll [.watchDataReg plugin.watchDataReg, .chan plugin.changeChan,
            .chan plugin.resyncChan, .configurator plugin.ifConfigurator]] } _ rfl
    refine ⟨fun _ => ⟨rfl, he⟩, by simp, ?_, ?_⟩
    · intro pre objs post hsplit
      rw [he] at hsplit
      rcases pre with _ | ⟨p1, _ | ⟨p2, _ | ⟨p3, _ | ⟨p4, pre⟩⟩⟩⟩ <;> simp at hsplit
      obtain ⟨h1, h2, h3, _⟩ := hsplit
      simp [h1, h2, h3]
    · intro err herr
      simp only [Outcome.returned.injEq] at herr
      exact herr.symm
  | false =>
    rw [Close_of_wait_blocks env plugin cancel rt h hw]
    have he := effectsSince_append rt
      { rt with
        cancelled := cancel.ctx :: rt.cancelled
        log := rt.log ++ [.cancel cancel.ctx, .waitEntered] } _ rfl
    refine ⟨by simp, fun _ => ⟨rfl, he⟩, ?_, ?_⟩
    · intro pre objs post hsplit
      rw [he] at hsplit
      rcases pre with _ | ⟨p1, _ | ⟨p2, pre⟩⟩ <;> simp at hsplit
    · intro err herr
      simp at herr

/-- C1, at a concrete input: the plugin initialised by `Init` is closed; the wait
returns because the only worker has been cancelled, and `Close` returns the nil
error of the release step. -/
theorem Close_cancels_waits_then_releases_witness :
    (newPlugin.Init workingEnv Runtime.initial).1.1.cancel = some ⟨2⟩ ∧
    ((newPlugin.Init workingEnv Runtime.initial).1.1.Close workingEnv
        (newPlugin.Init workingEnv Runtime.initial).2).1 = .returned none ∧
    effectsSince (newPlugin.Init workingEnv Runtime.initial).2
        ((newPlugin.Init workingEnv Runtime.initial).1.1.Close workingEnv
          (newPlugin.Init workingEnv Runtime.initial).2).2 =
      [.cancel 2, .waitEntered, .waitReturned,
        .closeAll [.watchDataReg (some ⟨"linuxplugin"⟩), .chan (some ⟨1⟩), .chan (some ⟨0⟩),
          .configurator (some ⟨some ⟨"linux_if_indexes"⟩⟩)]] :=
  ⟨rfl, (Close_cancels_waits_then_releases workingEnv
    (newPlugin.Init workingEnv Runtime.initial).1.1 ⟨2⟩
    (newPlugin.Init workingEnv Runtime.initial).2 rfl).1 rfl⟩

/-- C2 fails as stated: when `subscribeWatcher` fails, `Init` returns the error while
the worker it started (on context 2) has not been signalled: no cancel function
has been invoked and no cancel effect is logged. -/
theorem Init_failure_leaves_worker_unsignalled :
    (newPlugin.Init failingEnv Runtime.initial).1.2 = some .BackendUnavailable ∧
    startedSince Runtime.initial (newPlugin.Init failingEnv Runtime.initial).2 = [2] ∧
    (newPlugin.Init failingEnv Runtime.initial).2.cancelled = [] ∧
    effectsSince Runtime.initial (newPlugin.Init failingEnv Runtime.initial).2 = [.spawn 2] ∧
    allSignalled (newPlugin.Init failingEnv Runtime.initial).2
      (startedSince Runtime.initial (newPlugin.Init failingEnv Runtime.initial).2) = false :=
  ⟨rfl, rfl, rfl, rfl, rfl⟩

/-- C2, amended: when `subscribeWatcher` fails, `Init` returns that error and leaves
the global instance as it was.  `Init` does not invoke the cancel function itself:
it has started one worker, on the new context, and the set of cancelled contexts
is unchanged when it returns.  The cancel function of that context is kept in the
plugin, and `Close` on that plugin invokes it, signalling the worker. -/
theorem Init_failure_returns_error_keeps_cancel (env : Env) (plugin : Plugin) (rt : Runtime)
    (reg : Option WatchDataRegistration) (e : Err)
    (hsub : env.subscribeWatcher
      { addr := plugin.addr
        transport := some env.GetTransport
        ifIndexes := some (env.NewNameToIdx "linux_if_indexes")
        ifConfigurator := some ⟨some (env.NewNameToIdx "linux_if_indexes")⟩
        resyncChan := some ⟨rt.next⟩
        changeChan := some ⟨rt.next + 1⟩
        watchDataReg := plugin.watchDataReg
        cancel := some ⟨rt.next + 2⟩ } = (reg, some e)) :
    (plugin.Init env rt).1.2 = some e ∧
    (plugin.Init env rt).2.gPlugin = rt.gPlugin ∧
    (plugin.Init env rt).2.goroutines = (rt.next + 2) :: rt.goroutines ∧
    (plugin.Init env rt).2.cancelled = rt.cancelled ∧
    effectsSince rt (plugin.Init env rt).2 = [.spawn (rt.next + 2)] ∧
    (plugin.Init env rt).1.1.cancel = some ⟨rt.next + 2⟩ ∧
    (∀ rt2, rt.next + 2 ∈ ((plugin.Init env rt).1.1.Close env rt2).2.cancelled) := by
  rw [Init_eq, hsub]
  refine ⟨rfl, by simp, rfl, rfl, effectsSince_append _ _ _ rfl, rfl, ?_⟩
  intro rt2
  unfold Plugin.Close
  simp only [Runtime.record, Runtime.invoke]
  split <;> simp

/-- C2, amended, at a concrete input: the store cannot be reached, `Init` returns
the error, and a `Close` of the plugin cancels context 2. -/
theorem Init_failure_returns_error_keeps_cancel_witness :
    (newPlugin.Init failingEnv Runtime.initial).1.2 = some .BackendUnavailable ∧
    (newPlugin.Init failingEnv Runtime.initial).2.gPlugin = none ∧
    (newPlugin.Init failingEnv Runtime.initial).2.goroutines = [2] ∧
    (newPlugin.Init failingEnv Runtime.initial).2.cancelled = [] :=
  ⟨(Init_failure_returns_error_keeps_cancel failingEnv newPlugin Runtime.initial none
      .BackendUnavailable rfl).1,
    (Init_failure_returns_error_keeps_cancel failingEnv newPlugin Runtime.initial none
      .BackendUnavailable rfl).2.1, rfl, rfl⟩

end linuxplugin

/-! ## The initial resync of a subscription -/

namespace kvdbsync

end kvdbsync

/-! ## The name-to-index registry -/

namespace nametoidx

/-- The indices a run returns are above the counter it started from, exceed it by
at most the number of calls, and are strictly increasing. -/
theorem Registry.run_increasing (cs : List Call) :
    ∀ r : Registry, (∀ i ∈ (r.run cs).2, r.counter < i ∧ i ≤ r.counter + cs.length) ∧
      (r.run cs).2.Pairwise (· < ·) := by
  induction cs with
  | nil => intro r; simp [Registry.run]
  | cons c cs ih =>
    intro r
    cases c with
    | Register name metadata =>
      by_cases hx : (r.LookupByName name).2 = true
      · have hr : r.Register name metadata = ((0, some .AlreadyExists), r) := by
          simp [Registry.Register, hx]
        simp only [Registry.run, hr]
        obtain ⟨h1, h2⟩ := ih r
        refine ⟨fun i hi => ?_, h2⟩
        have := h1 i hi
        simp only [List.length_cons]
        omega
      · have hr : r.Register name metadata =
            ((r.counter + 1, none),
              { entries := r.entries ++ [⟨name, r.counter + 1, metadata⟩],
                counter := r.counter + 1 }) := by
          simp [Registry.Register, hx]
        simp only [Registry.run, hr]
        obtain ⟨h1, h2⟩ := ih
          { entries := r.entries ++ [⟨name, r.counter + 1, metadata⟩], counter := r.counter + 1 }
        refine ⟨?_, ?_⟩
        · intro i hi
          simp only [List.length_cons]
          rcases List.mem_cons.mp hi with h | h
          · omega
          · have := h1 i h
            simp only at this
            omega
        · exact List.pairwise_cons.mpr ⟨fun i hi => (h1 i hi).1, h2⟩
    | Unregister name =>
      simp only [Registry.run]
      obtain ⟨h1, h2⟩ := ih (r.Unregister name).2
      have hc : (r.Unregister name).2.counter = r.counter := by
        unfold Registry.Unregister
        split <;> rfl
      rw [hc] at h1
      refine ⟨fun i hi => ?_, h2⟩
      have := h1 i hi
      simp only [List.length_cons]
      omega

/-- C5: for every sequence of `Register` and `Unregister` calls on a new registry,
the indices returned by the successful `Register` calls are strictly increasing in
call order, hence pairwise different: an index is never handed out twice, also
after its name has been unregistered.  Every index is positive and at most the
number of calls made.  Registering A, unregistering A and registering B gives B
index 2, different from A's index 1. -/
theorem Register_never_reuses_index (cs : List Call) :
    (NewNameToIdx.run cs).2.Pairwise (· < ·) ∧
    (NewNameToIdx.run cs).2.Pairwise (· ≠ ·) ∧
    (∀ i ∈ (NewNameToIdx.run cs).2, 0 < i ∧ i ≤ cs.length) ∧
    (NewNameToIdx.run [.Register "A" "", .Unregister "A", .Register "B" ""]).2 = [1, 2] := by
  have h := Registry.run_increasing cs NewNameToIdx
  refine ⟨h.2, h.2.imp (fun hlt => Nat.ne_of_lt hlt), fun i hi => ?_, by decide⟩
  have := h.1 i hi
  simp only [NewNameToIdx] at this
  omega

end nametoidx

/-! ## plugins/linuxplugin: the global instance -/

namespace linuxplugin

/-- The global instance after one `Init`: the plugin when `Init` returned nil, the
earlier global otherwise. -/
theorem Init_gPlugin (env : Env) (p : Plugin) (rt : Runtime) :
    (p.Init env rt).2.gPlugin =
      if (p.Init env rt).1.2 = none then some p.addr else rt.gPlugin := by
  rw [Init_eq]

/-- The global instance after a sequence of `Init` calls: the plugin whose `Init`
succeeded last, or the earlier global when none succeeded. -/
theorem runInits_gPlugin (calls : List (Env × Plugin)) :
    ∀ rt : Runtime, (runInits rt calls).1.gPlugin =
      match lastSucceeded (runInits rt calls).2 with
      | some addr => some addr
      | none => rt.gPlugin := by
  induction calls with
  | nil => intro rt; rfl
  | cons c calls ih =>
    intro rt
    obtain ⟨env, p⟩ := c
    simp only [runInits, lastSucceeded]
    rw [ih (p.Init env rt).2]
    cases hl : lastSucceeded (runInits (p.Init env rt).2 calls).2 with
    | some later => rfl
    | none =>
      simp only [Init_gPlugin]
      by_cases he : (p.Init env rt).1.2 = none <;> simp [he]

/-- No `Init` of the list returned nil exactly when there is no last success. -/
theorem lastSucceeded_eq_none (results : List (Nat × Option Err)) :
    lastSucceeded results = none ↔ ∀ r ∈ results, r.2 ≠ none := by
  induction results with
  | nil => simp [lastSucceeded]
  | cons r results ih =>
    obtain ⟨addr, err⟩ := r
    simp only [lastSucceeded]
    cases hl : lastSucceeded results with
    | some later =>
      refine ⟨fun h => Option.noConfusion h, fun hall => ?_⟩
      have hnone := ih.mpr (fun r hr => hall r (List.mem_cons_of_mem _ hr))
      rw [hnone] at hl
      exact Option.noConfusion hl
    | none =>
      have hall := ih.mp hl
      by_cases he : err = none
      · simp only [he, if_true]
        refine ⟨fun h => Option.noConfusion h, fun h => ?_⟩
        exact absurd rfl (h (addr, none) (List.mem_cons_self _ _))
      · simp only [he, if_false, true_iff]
        intro r hr
        rcases List.mem_cons.mp hr with h | h
        · rw [h]; exact he
        · exact hall r h

/-- The last success is a call that returned nil and is followed by failures only. -/
theorem lastSucceeded_eq_some (results : List (Nat × Option Err)) :
    ∀ addr, lastSucceeded results = some addr →
      ∃ before after, results = before ++ (addr, none) :: after ∧ ∀ r ∈ after, r.2 ≠ none := by
  induction results with
  | nil => intro addr h; simp [lastSucceeded] at h
  | cons r results ih =>
    obtain ⟨a, err⟩ := r
    intro addr h
    simp only [lastSucceeded] at h
    cases hl : lastSucceeded results with
    | some later =>
      rw [hl] at h
      simp only [Option.some.injEq] at h
      subst h
      obtain ⟨before, after, hsplit, hfail⟩ := ih later hl
      exact ⟨(a, err) :: before, after, by rw [hsplit]; rfl, hfail⟩
    | none =>
      rw [hl] at h
      by_cases he : err = none
      · simp only [he, if_true, Option.some.injEq] at h
        subst h
        subst he
        exact ⟨[], results, rfl, (lastSucceeded_eq_none results).mp hl⟩
      · simp [he] at h

/-- The results of a sequence of `Init` calls list the plugins in call order. -/
theorem runInits_addrs (calls : List (Env × Plugin)) :
    ∀ rt : Runtime, (runInits rt calls).2.map Prod.fst = calls.map (fun c => c.2.addr) := by
  induction calls with
  | nil => intro rt; rfl
  | cons c calls ih =>
    intro rt
    obtain ⟨env, p⟩ := c
    simp only [runInits, List.map_cons]
    rw [ih]

/-- After a sequence of `Init` calls started with a nil global, the global is the
plugin whose `Init` succeeded last, if there is one. -/
theorem runInits_gPlugin_of_nil (rt : Runtime) (calls : List (Env × Plugin))
    (h : rt.gPlugin = none) :
    (runInits rt calls).1.gPlugin = lastSucceeded (runInits rt calls).2 := by
  rw [runInits_gPlugin calls rt, h]
  cases lastSucceeded (runInits rt calls).2 <;> rfl

/-- C11: `plugin()` panics while the global instance is nil.  For every sequence of
`Init` calls starting from a nil global, `plugin()` afterwards returns an instance
exactly when at least one of the `Init` calls returned nil, and panics exactly when
all of them returned an error; the instance returned is the plugin of the most
recent `Init` that returned nil (every later `Init` returned an error).  An `Init`
that returns an error leaves the global as it was. -/
theorem plugin_returns_last_initialised (rt : Runtime) (calls : List (Env × Plugin))
    (h : rt.gPlugin = none) :
    plugin rt = .panicked ∧
    ((∃ addr, plugin (runInits rt calls).1 = .returned addr) ↔
      ∃ r ∈ (runInits rt calls).2, r.2 = none) ∧
    (plugin (runInits rt calls).1 = .panicked ↔ ∀ r ∈ (runInits rt calls).2, r.2 ≠ none) ∧
    (∀ addr, plugin (runInits rt calls).1 = .returned addr →
      ∃ before after, (runInits rt calls).2 = before ++ (addr, none) :: after ∧
        ∀ r ∈ after, r.2 ≠ none) ∧
    (runInits rt calls).2.map Prod.fst = calls.map (fun c => c.2.addr) ∧
    (∀ (env : Env) (p : Plugin) (rt0 : Runtime) (e : Err),
      (p.Init env rt0).1.2 = some e → (p.Init env rt0).2.gPlugin = rt0.gPlugin) := by
  have hg := runInits_gPlugin_of_nil rt calls h
  refine ⟨by simp [plugin, h], ?_, ?_, ?_, runInits_addrs calls rt, ?_⟩
  · unfold plugin
    rw [hg]
    cases hl : lastSucceeded (runInits rt calls).2 with
    | none =>
      have hall := (lastSucceeded_eq_none _).mp hl
      constructor
      · rintro ⟨addr, ha⟩
        exact Outcome.noConfusion ha
      · rintro ⟨r, hr, hnone⟩
        exact absurd hnone (hall r hr)
    | some addr =>
      obtain ⟨before, after, hsplit, _⟩ := lastSucceeded_eq_some _ addr hl
      refine ⟨fun _ => ⟨(addr, none), ?_, rfl⟩, fun _ => ⟨addr, rfl⟩⟩
      rw [hsplit]
      simp
  · unfold plugin
    rw [hg]
    cases hl : lastSucceeded (runInits rt calls).2 with
    | none => exact ⟨fun _ => (lastSucceeded_eq_none _).mp hl, fun _ => rfl⟩
    | some addr =>
      refine ⟨fun hp => Outcome.noConfusion hp, fun hall => ?_⟩
      rw [(lastSucceeded_eq_none _).mpr hall] at hl
      exact Option.noConfusion hl
  · intro addr hp
    unfold plugin at hp
    rw [hg] at hp
    cases hl : lastSucceeded (runInits rt calls).2 with
    | none =>
      rw [hl] at hp
      exact Outcome.noConfusion hp
    | some a =>
      rw [hl] at hp
      simp only [Outcome.returned.injEq] at hp
      subst hp
      exact lastSucceeded_eq_some _ a hl
  · intro env p rt0 e he
    rw [Init_gPlugin, he]
    simp

/-- C11, at a concrete input: from the freshly loaded package, `Init` succeeds on
the plugin at address 1, then fails on the plugin at address 2, then succeeds on
the plugin at address 3 and fails on the plugin at address 4; `plugin()` returns
the plugin at address 3. -/
theorem plugin_returns_last_initialised_witness :
    Runtime.initial.gPlugin = none ∧
    plugin (runInits Runtime.initial
      [(workingEnv, newPluginAt 1), (failingEnv, newPluginAt 2), (workingEnv, newPluginAt 3),
        (failingEnv, newPluginAt 4)]).1 = .returned 3 ∧
    (∃ before after, (runInits Runtime.initial
        [(workingEnv, newPluginAt 1), (failingEnv, newPluginAt 2), (workingEnv, newPluginAt 3),
          (failingEnv, newPluginAt 4)]).2 = before ++ (3, none) :: after ∧
      ∀ r ∈ after, r.2 ≠ none) :=
  ⟨rfl, rfl, (plugin_returns_last_initialised Runtime.initial
    [(workingEnv, newPluginAt 1), (failingEnv, newPluginAt 2), (workingEnv, newPluginAt 3),
      (failingEnv, newPluginAt 4)] rfl).2.2.2.1 3 rfl⟩

end linuxplugin
